import Mathlib

/-!
Verification of the `PacketMonitorPanel` component of `meshmonitor`
(src/src/components/PacketMonitorPanel.tsx), a live mesh-traffic log
viewer.  The component's pure logic — permission gating, own-node id
resolution, the hide-own-packets filter, dynamic type-column width,
hop-count derivation, cell rendering (content / destination), the
fetch and clear state transitions, and the detail-overlay metadata
rendering — is shallowly embedded below; the theorems at the end of
the file settle the specification's claims about it.

JavaScript conventions that matter for faithfulness are modelled
explicitly: `x || y` and `x ?? y` over possibly-absent values, the
truthiness of numbers (0 and NaN are falsy) and strings ("" is falsy),
and `parseInt(s, 16)` returning NaN (modelled as `none`) when no hex
digit can be read.
-/

namespace PacketMonitor

/-- Record of one observed packet, following the fields the component
reads (spec §3 "Packet Record").  Nullable/optional TypeScript fields
become `Option`; `from_node` is the non-nullable source numeric id. -/
structure PacketLog where
  id : Nat
  packet_id : Option Nat
  timestamp : Nat
  from_node : Nat
  from_node_id : Option String
  from_node_longName : Option String
  to_node : Option Nat
  to_node_id : Option String
  to_node_longName : Option String
  portnum : Option Nat
  portnum_name : Option String
  channel : Option Nat
  snr : Option Int
  rssi : Option Int
  hop_start : Option Int
  hop_limit : Option Int
  payload_size : Option Nat
  payload_preview : Option String
  encrypted : Bool
  metadata : Option String
deriving DecidableEq, Repr

/-- Filter criteria sent with each fetch (`PacketFilters`): optional
port-type selector and optional encrypted/decoded selector. -/
structure PacketFilters where
  portnum : Option Nat
  encrypted : Option Bool
deriving DecidableEq, Repr

/-- Local component state: the `useState` cells of the component. -/
structure PanelState where
  rawPackets : List PacketLog
  total : Nat
  maxCount : Nat
  loading : Bool
  autoScroll : Bool
  selectedPacket : Option PacketLog
  filters : PacketFilters
  showFilters : Bool
  hideOwnPackets : Bool
deriving DecidableEq, Repr

/-! ## JavaScript value conventions -/

/-- JavaScript `a || b` where `a` is a possibly-absent string:
`undefined`/`null` and the empty string are falsy. -/
def jsOrStr (a : Option String) (b : String) : String :=
  match a with
  | some s => if s = "" then b else s
  | none => b

/-- JavaScript `a || b` where `a` is a possibly-absent string and `b`
is itself possibly absent (used for chains like `x || y || z`). -/
def jsOrStrOpt (a : Option String) (b : Option String) : Option String :=
  match a with
  | some s => if s = "" then b else some s
  | none => b

/-- JavaScript `n || b` where `n` is a possibly-absent number rendered
as text when truthy: `undefined`/`null` and `0` are falsy. -/
def jsOrNum (n : Option Nat) (b : String) : String :=
  match n with
  | some k => if k = 0 then b else toString k
  | none => b

/-- JavaScript `n ?? b` where `n` is a possibly-absent number rendered
as text: only `undefined`/`null` select `b` (0 is kept). -/
def jsNullishNum (n : Option Nat) (b : String) : String :=
  match n with
  | some k => toString k
  | none => b

/-- Truthiness of a possibly-absent string (`undefined`, `null` and
`""` are falsy). -/
def jsTruthyStr : Option String → Bool
  | none => false
  | some s => s ≠ ""

/-- Truthiness of a possibly-absent number; `none` also stands for NaN
(`undefined`, `null`, `NaN` and `0` are falsy). -/
def jsTruthyNum : Option Nat → Bool
  | none => false
  | some n => n ≠ 0

/-! ## Own-node resolution and the hide-own-packets filter -/

/-- Hexadecimal digit test, as `parseInt(·, 16)` accepts. -/
def isHexDigit (c : Char) : Bool :=
  c.isDigit || ('a' ≤ c && c ≤ 'f') || ('A' ≤ c && c ≤ 'F')

/-- Numeric value of a hexadecimal digit. -/
def hexDigitVal (c : Char) : Nat :=
  if c.isDigit then c.toNat - '0'.toNat
  else if 'a' ≤ c && c ≤ 'f' then c.toNat - 'a'.toNat + 10
  else c.toNat - 'A'.toNat + 10

/-- Model of JavaScript `parseInt(s, 16)` on inputs without leading
whitespace or sign, as node-id suffixes are: read the longest prefix
of hex digits; `none` models the NaN result when there is none. -/
def jsParseIntHexList (cs : List Char) : Option Nat :=
  let ds := cs.takeWhile isHexDigit
  if ds.isEmpty then none
  else some (ds.foldl (fun acc c => acc * 16 + hexDigitVal c) 0)

/-- Own node number (component lines 47–51): take the viewer's node id
string; if absent, empty, or not starting with `!`, resolve to
`undefined`; otherwise parse the suffix as hex.  On character lists,
`!nodeId || !nodeId.startsWith('!')` is exactly "empty, or first
character not `!`". -/
def ownNodeNum (nodeId : Option String) : Option Nat :=
  match nodeId with
  | none => none
  | some nid =>
    match nid.toList with
    | [] => none
    | c :: rest => if c = '!' then jsParseIntHexList rest else none

/-- Effective row list (component lines 54–59): the guard is the JS
condition `hideOwnPackets && ownNodeNum`, so the filter applies only
when the resolved own-node number is truthy (present and nonzero). -/
def effectivePackets (hideOwnPackets : Bool) (own : Option Nat)
    (rawPackets : List PacketLog) : List PacketLog :=
  match own with
  | some n =>
    if hideOwnPackets && n ≠ 0 then
      rawPackets.filter (fun packet => packet.from_node ≠ n)
    else rawPackets
  | none => rawPackets

/-! ## Derived display metrics -/

/-- Displayed type label of a packet (component line 64):
`packet.portnum_name ?? String(packet.portnum ?? '')`. -/
def typeLabel (packet : PacketLog) : String :=
  match packet.portnum_name with
  | some name => name
  | none =>
    match packet.portnum with
    | some n => toString n
    | none => ""

/-- Longest displayed type label over a row list (component lines
63–66): a fold of `Math.max` over label lengths, starting from 0. -/
def longestTypeLabel (packets : List PacketLog) : Nat :=
  packets.foldl (fun m packet => max m (typeLabel packet).length) 0

/-- Dynamic type-column width in character units (component lines
60–68): `max(longestLabel + 5, 12)`. -/
def typeColumnWidthChars (packets : List PacketLog) : Nat :=
  max (longestTypeLabel packets + 5) 12

/-- Derived hop count (component lines 182–187): defined only when
both counters are present, as `hop_start - hop_limit`. -/
def calculateHops (packet : PacketLog) : Option Int :=
  match packet.hop_start, packet.hop_limit with
  | some s, some l => some (s - l)
  | _, _ => none

/-- Hops cell text (component line 356): the hop count, else `N/A`. -/
def hopsCell (packet : PacketLog) : String :=
  match calculateHops packet with
  | some h => toString h
  | none => "N/A"

/-- Long-name truncation (component lines 72–75): falsy input passes
through as `undefined`; names longer than 30 characters are cut to the
first 30 plus an ellipsis marker. -/
def truncateLongName (longName : Option String) : Option String :=
  match longName with
  | none => none
  | some s =>
    if s = "" then none
    else if s.length > 30 then some (s.take 30 ++ "...") else some s

/-! ## Cell rendering -/

/-- Text of the encrypted-content indicator (component line 360). -/
def encryptedIndicator : String := "🔒 <ENCRYPTED>"

/-- Table Content cell (component lines 358–364): the encrypted
indicator when `encrypted`, else `payload_preview || '[No preview]'`. -/
def contentCell (packet : PacketLog) : String :=
  if packet.encrypted then encryptedIndicator
  else jsOrStr packet.payload_preview "[No preview]"

/-- Detail-overlay Content field (component lines 441–450): same
selection as the table cell. -/
def detailContentField (packet : PacketLog) : String :=
  if packet.encrypted then encryptedIndicator
  else jsOrStr packet.payload_preview "[No preview]"

/-- Table To cell text (component lines 333–346).  `hasNodeClick`
records whether the optional navigation callback was supplied. -/
def toCellText (hasNodeClick : Bool) (packet : PacketLog) : String :=
  if packet.to_node_id = some "!ffffffff" then "Broadcast"
  else if jsTruthyStr packet.to_node_id && hasNodeClick then
    jsOrStr (truncateLongName packet.to_node_longName)
      (packet.to_node_id.getD "")
  else
    jsOrStr (jsOrStrOpt (truncateLongName packet.to_node_longName)
        packet.to_node_id)
      (jsOrNum packet.to_node "N/A")

/-- Detail-overlay To field text (component lines 397–404):
`Broadcast` for the sentinel, else
`(longName || to_node_id || 'N/A') (to_node ?? 'N/A')`. -/
def detailToText (packet : PacketLog) : String :=
  if packet.to_node_id = some "!ffffffff" then "Broadcast"
  else
    jsOrStr (jsOrStrOpt packet.to_node_longName packet.to_node_id) "N/A"
      ++ " (" ++ jsNullishNum packet.to_node "N/A" ++ ")"

/-! ## Sync layer: permission gate, fetch, polling, clear -/

/-- Response contract of `getPackets` (spec §6). -/
structure FetchResponse where
  packets : List PacketLog
  total : Nat
  maxCount : Nat
deriving DecidableEq, Repr

/-- Observable side effects the component emits, for stating what the
sync and interaction handlers do besides updating local state. -/
inductive Effect where
  | fetchRequest (offset limit : Nat) (filters : PacketFilters)
  | clearRequest
  | alert (msg : String)
  | logError (msg : String)
  | confirmPrompt (msg : String)
  | scrollToTop
  | fetchTrigger
deriving DecidableEq, Repr

/-- Permission gate (component line 43): both `channels:read` and
`messages:read` must hold. -/
def canView (hasPermission : String → String → Bool) : Bool :=
  hasPermission "channels" "read" && hasPermission "messages" "read"

/-- One fetch attempt (component lines 78–97).  `result` is the
outcome of the awaited `getPackets(0, 100, filters)` call: `some r`
for a response, `none` for a thrown error.  Returns the new state and
the emitted effects.  When the gate fails the function returns before
issuing any request. -/
def fetchPackets (cv : Bool) (result : Option FetchResponse)
    (s : PanelState) : PanelState × List Effect :=
  if ¬ cv then (s, [])
  else
    match result with
    | some r =>
      ({ s with rawPackets := r.packets, total := r.total,
                maxCount := r.maxCount, loading := false },
       [Effect.fetchRequest 0 100 s.filters]
         ++ (if s.autoScroll then [Effect.scrollToTop] else []))
    | none =>
      ({ s with loading := false },
       [Effect.fetchRequest 0 100 s.filters,
        Effect.logError "Failed to fetch packets"])

/-- Polling effect setup (component lines 100–113): when the gate
fails the effect returns before installing any interval; otherwise an
interval of 5000 ms is installed. -/
def pollIntervalSetup (cv : Bool) : Option Nat :=
  if cv then some 5000 else none

/-- Clear handler (component lines 116–133).  `isAdmin` is the
administrator capability flag, `confirmAnswer` the interactive
confirmation result, `clearOk` whether the awaited `clearPackets()`
call succeeded.  The handler never changes component state itself; on
success it re-triggers the fetch. -/
def handleClear (isAdmin confirmAnswer clearOk : Bool)
    (s : PanelState) : PanelState × List Effect :=
  if ¬ isAdmin then
    (s, [Effect.alert "Only administrators can clear packet logs"])
  else if ¬ confirmAnswer then
    (s, [Effect.confirmPrompt "Are you sure you want to clear all packet logs?"])
  else if clearOk then
    (s, [Effect.confirmPrompt "Are you sure you want to clear all packet logs?",
         Effect.clearRequest, Effect.fetchTrigger])
  else
    (s, [Effect.confirmPrompt "Are you sure you want to clear all packet logs?",
         Effect.clearRequest,
         Effect.logError "Failed to clear packets",
         Effect.alert "Failed to clear packet logs"])

/-! ## Rendered view -/

/-- Table area of the monitor view (component lines 278–371). -/
inductive TableView where
  | loadingView
  | noPackets
  | table (rows : List PacketLog) (typeWidthChars : Nat)
deriving DecidableEq, Repr

/-- Monitor body: the table area plus the detail overlay, which, when
open, displays the selected-packet snapshot (component lines 375–461). -/
structure MonitorView where
  view : TableView
  overlay : Option PacketLog
deriving DecidableEq, Repr

/-- Whole rendered output of the component. -/
inductive PanelView where
  | permissionDenied
  | monitor (m : MonitorView)
deriving DecidableEq, Repr

/-- Top-level render (component lines 189–463): the permission-denied
explanation when the gate fails (line 189), otherwise the monitor with
the effective row list and the overlay for the selected packet. -/
def render (cv : Bool) (own : Option Nat) (s : PanelState) : PanelView :=
  if ¬ cv then PanelView.permissionDenied
  else
    let packets := effectivePackets s.hideOwnPackets own s.rawPackets
    PanelView.monitor
      { view :=
          if s.loading then TableView.loadingView
          else if packets.isEmpty then TableView.noPackets
          else TableView.table packets (typeColumnWidthChars packets),
        overlay := s.selectedPacket }

/-- Packet displayed by the detail overlay of a rendered view, if any. -/
def overlayPacket : PanelView → Option PacketLog
  | PanelView.permissionDenied => none
  | PanelView.monitor m => m.overlay

/-! ## Model of `JSON.parse` for the metadata blob

The component feeds `selectedPacket.metadata` to `JSON.parse` with no
error guard (line 454).  The recursive-descent parser below models the
ECMA JSON grammar: literals, numbers (sign, fraction, exponent; the
leading-zero restriction is not enforced), strings (escape sequences
are accepted un-interpreted beyond the escaped character itself),
arrays and objects.  `none` models a thrown `SyntaxError`.  Fuel
bounds the recursion; one unit of fuel is only ever spent after
consuming at least one input character, so `length + 2` never runs
out on well-formed input. -/

/-- Parsed JSON value. -/
inductive Json where
  | null
  | bool (b : Bool)
  | num (lexeme : String)
  | str (s : String)
  | arr (elems : List Json)
  | obj (members : List (String × Json))
deriving Repr

/-- Consume JSON insignificant whitespace. -/
def skipWs : List Char → List Char
  | c :: cs =>
    if c = ' ' || c = '\t' || c = '\n' || c = '\r' then skipWs cs
    else c :: cs
  | [] => []

/-- Consume an expected literal continuation, or fail. -/
def dropLit : List Char → List Char → Option (List Char)
  | [], rest => some rest
  | l :: ls, c :: rest => if c = l then dropLit ls rest else none
  | _ :: _, [] => none

/-- Consume a maximal run of decimal digits. -/
def lexDigits : List Char → List Char × List Char
  | c :: cs =>
    if c.isDigit then
      let (d, r) := lexDigits cs
      (c :: d, r)
    else ([], c :: cs)
  | [] => ([], [])

/-- Consume an optional exponent part after the given prefix. -/
def lexExpOpt (pre : List Char) : List Char → Option (List Char × List Char)
  | c :: r =>
    if c = 'e' || c = 'E' then
      let (sgn, r1) :=
        match r with
        | s :: r2 => if s = '+' || s = '-' then ([s], r2) else ([], s :: r2)
        | [] => ([], ([] : List Char))
      let (ed, r3) := lexDigits r1
      if ed.isEmpty then none else some (pre ++ c :: (sgn ++ ed), r3)
    else some (pre, c :: r)
  | [] => some (pre, [])

/-- Consume a JSON number, returning its lexeme. -/
def lexNumber (cs : List Char) : Option (String × List Char) := do
  let (sign, cs1) :=
    match cs with
    | '-' :: r => ([('-' : Char)], r)
    | _ => (([] : List Char), cs)
  let (ds, cs2) := lexDigits cs1
  if ds.isEmpty then none
  else
    match cs2 with
    | '.' :: r =>
      let (fd, cs3) := lexDigits r
      if fd.isEmpty then none
      else do
        let (txt, rest) ← lexExpOpt (sign ++ ds ++ '.' :: fd) cs3
        some (String.mk txt, rest)
    | _ => do
      let (txt, rest) ← lexExpOpt (sign ++ ds) cs2
      some (String.mk txt, rest)

/-- Consume the remainder of a JSON string after its opening quote. -/
def lexStringRest : Nat → List Char → Option (List Char × List Char)
  | 0, _ => none
  | _ + 1, [] => none
  | fuel + 1, c :: cs =>
    if c = '"' then some ([], cs)
    else if c = '\\' then
      match cs with
      | [] => none
      | e :: cs1 => do
        let (r, rest) ← lexStringRest fuel cs1
        some (e :: r, rest)
    else do
      let (r, rest) ← lexStringRest fuel cs
      some (c :: r, rest)

mutual

/-- Parse one JSON value (fuelled). -/
def parseValue : Nat → List Char → Option (Json × List Char)
  | 0, _ => none
  | fuel + 1, input =>
    match skipWs input with
    | '{' :: cs =>
      (match skipWs cs with
       | '}' :: rest => some (Json.obj [], rest)
       | rest => do
         let (ms, r) ← parseMembers fuel rest
         some (Json.obj ms, r))
    | '[' :: cs =>
      (match skipWs cs with
       | ']' :: rest => some (Json.arr [], rest)
       | rest => do
         let (xs, r) ← parseItems fuel rest
         some (Json.arr xs, r))
    | '"' :: cs => do
      let (s, r) ← lexStringRest fuel cs
      some (Json.str (String.mk s), r)
    | 't' :: cs => do
      let r ← dropLit ['r', 'u', 'e'] cs
      some (Json.bool true, r)
    | 'f' :: cs => do
      let r ← dropLit ['a', 'l', 's', 'e'] cs
      some (Json.bool false, r)
    | 'n' :: cs => do
      let r ← dropLit ['u', 'l', 'l'] cs
      some (Json.null, r)
    | cs => do
      let (txt, r) ← lexNumber cs
      some (Json.num txt, r)

/-- Parse a non-empty comma-separated member list and closing brace. -/
def parseMembers : Nat → List Char → Option (List (String × Json) × List Char)
  | 0, _ => none
  | fuel + 1, cs =>
    match skipWs cs with
    | '"' :: cs1 => do
      let (key, cs2) ← lexStringRest fuel cs1
      match skipWs cs2 with
      | ':' :: cs3 => do
        let (v, cs4) ← parseValue fuel cs3
        match skipWs cs4 with
        | ',' :: cs5 => do
          let (rest, cs6) ← parseMembers fuel cs5
          some ((String.mk key, v) :: rest, cs6)
        | '}' :: cs5 => some ([(String.mk key, v)], cs5)
        | _ => none
      | _ => none
    | _ => none

/-- Parse a non-empty comma-separated item list and closing bracket. -/
def parseItems : Nat → List Char → Option (List Json × List Char)
  | 0, _ => none
  | fuel + 1, cs => do
    let (v, cs1) ← parseValue fuel cs
    match skipWs cs1 with
    | ',' :: cs2 => do
      let (rest, cs3) ← parseItems fuel cs2
      some (v :: rest, cs3)
    | ']' :: cs2 => some ([v], cs2)
    | _ => none

end

/-- Model of `JSON.parse(s)`: parse one value, require only trailing
whitespace after it; `none` models a thrown `SyntaxError`. -/
def jsonParse (s : String) : Option Json :=
  match parseValue (s.length + 2) s.toList with
  | some (j, rest) => if (skipWs rest).isEmpty then some j else none
  | none => none

/-! ## Detail overlay rendering -/

/-- Rendered fields of the detail overlay (component lines 382–457).
The metadata field holds the parsed JSON value; its pretty-printing by
`JSON.stringify(·, null, 2)` is not further modelled. -/
structure DetailView where
  idText : String
  fromText : String
  toText : String
  portText : String
  channelText : String
  encryptedText : String
  hopsRow : Option Int
  contentText : String
  metadataJson : Option Json
deriving Repr

/-- Metadata row (component lines 451–456): the row is rendered only
when `metadata` is truthy, and its value goes through `JSON.parse`
with no error guard, so an unparseable blob throws. -/
def renderMetadataRow (metadata : Option String) : Except String (Option Json) :=
  match metadata with
  | none => Except.ok none
  | some m =>
    if m = "" then Except.ok none
    else
      match jsonParse m with
      | some j => Except.ok (some j)
      | none => Except.error "SyntaxError: JSON.parse"

/-- Detail overlay rendering (component lines 375–461): every field is
total except the metadata row, whose parse error propagates out of the
render. -/
def renderDetailOverlay (p : PacketLog) : Except String DetailView :=
  match renderMetadataRow p.metadata with
  | Except.error e => Except.error e
  | Except.ok md =>
    Except.ok
      { idText := jsNullishNum p.packet_id "N/A"
        fromText :=
          jsOrStr (jsOrStrOpt p.from_node_longName p.from_node_id) ""
            ++ " (" ++ toString p.from_node ++ ")"
        toText := detailToText p
        portText :=
          p.portnum_name.getD "" ++ " ("
            ++ (match p.portnum with
                | some n => toString n
                | none => "") ++ ")"
        channelText := jsNullishNum p.channel "N/A"
        encryptedText := if p.encrypted then "Yes 🔒" else "No"
        hopsRow := calculateHops p
        contentText := detailContentField p
        metadataJson := md }

/-! ## Sample values -/

/-- Representative decoded packet used for concrete evaluations. -/
def basePacket : PacketLog :=
  { id := 1, packet_id := some 101, timestamp := 1700000000, from_node := 5,
    from_node_id := some "!5", from_node_longName := none,
    to_node := some 7, to_node_id := some "!7", to_node_longName := none,
    portnum := some 1, portnum_name := some "TEXT_MESSAGE_APP",
    channel := some 0, snr := some 5, rssi := some (-80),
    hop_start := some 3, hop_limit := some 1,
    payload_size := some 12, payload_preview := some "hello",
    encrypted := false, metadata := none }

/-- Initial component state, from the `useState` initialisers
(component lines 30–38). -/
def initState : PanelState :=
  { rawPackets := [], total := 0, maxCount := 1000, loading := true,
    autoScroll := true, selectedPacket := none,
    filters := { portnum := none, encrypted := none },
    showFilters := false, hideOwnPackets := true }

/-! ## Helper lemmas -/

theorem foldl_max_init_le (l : List PacketLog) (m : Nat) :
    m ≤ l.foldl (fun acc p => max acc (typeLabel p).length) m := by
  induction l generalizing m with
  | nil => exact Nat.le_refl m
  | cons p t ih => exact Nat.le_trans (Nat.le_max_left _ _) (ih (max m (typeLabel p).length))

theorem label_le_longestTypeLabel (l : List PacketLog) (m : Nat) (p : PacketLog)
    (hp : p ∈ l) : (typeLabel p).length ≤ l.foldl (fun acc q => max acc (typeLabel q).length) m := by
  induction l generalizing m with
  | nil => cases hp
  | cons q t ih =>
    rcases List.mem_cons.mp hp with rfl | hmem
    · exact Nat.le_trans (Nat.le_max_right m _) (foldl_max_init_le t _)
    · exact ih _ hmem

/-! ## Claim theorems -/

/-- C1 counterexample: the claim counts the own-node id as known
whenever the node-id string starts with `!` and its hex suffix parses
to a number; but for the viewer node id `"!0"` the suffix parses to
the number 0, which is falsy in the guard `hideOwnPackets &&
ownNodeNum`, so with the toggle enabled the effective list still
contains a record whose `from_node` equals the own-node id 0. -/
theorem C1_zero_node_id_not_filtered :
    ownNodeNum (some "!0") = some 0 ∧
    effectivePackets true (ownNodeNum (some "!0"))
        [{ basePacket with from_node := 0 }] =
      [{ basePacket with from_node := 0 }] ∧
    ({ basePacket with from_node := 0 } : PacketLog).from_node = 0 := by
  refine ⟨by decide, by decide, rfl⟩

/-- C1 (amended): when the hide-own-packets toggle is enabled and the
own-node id resolves to a nonzero number, the effective list contains
no record whose `from_node` equals it; when the toggle is disabled,
the id is unresolved, or the id is zero, the effective list is exactly
the raw list (the raw list is never modified: `effectivePackets` maps
it to a new list). -/
theorem C1_effective_row_list (hide : Bool) (own : Option Nat)
    (raw : List PacketLog) :
    (∀ n, own = some n → n ≠ 0 → hide = true →
      ∀ p ∈ effectivePackets hide own raw, p.from_node ≠ n) ∧
    (hide = false ∨ own = none ∨ own = some 0 →
      effectivePackets hide own raw = raw) := by
  constructor
  · rintro n rfl hn hh p hp
    simp [effectivePackets, hh, hn, List.mem_filter] at hp
    exact hp.2
  · rintro (rfl | rfl | rfl)
    · cases own <;> simp [effectivePackets]
    · simp [effectivePackets]
    · simp [effectivePackets]

/-- C1 witness: concrete instances of both conjuncts. -/
theorem C1_effective_row_list_witness :
    ({ basePacket with from_node := 6 } : PacketLog).from_node ≠ 5 ∧
    effectivePackets false (some 5) [basePacket] = [basePacket] :=
  ⟨(C1_effective_row_list true (some 5)
      [{ basePacket with from_node := 6 }]).1 5 rfl (by decide) rfl
      { basePacket with from_node := 6 } (by decide),
   (C1_effective_row_list false (some 5) [basePacket]).2 (Or.inl rfl)⟩

/-- C2: an encrypted record renders the encrypted indicator in the
table Content cell and the overlay Content field, independently of
whatever `payload_preview` carries; a decoded record renders its
non-empty preview text, and the `[No preview]` placeholder when the
preview is absent (or empty, which JS `||` treats as absent). -/
theorem C2_encrypted_display (p : PacketLog) :
    (p.encrypted = true →
      ∀ pv, contentCell { p with payload_preview := pv } = encryptedIndicator ∧
        detailContentField { p with payload_preview := pv } = encryptedIndicator) ∧
    (p.encrypted = false →
      (∀ s, p.payload_preview = some s → s ≠ "" →
        contentCell p = s ∧ detailContentField p = s) ∧
      ((p.payload_preview = none ∨ p.payload_preview = some "") →
        contentCell p = "[No preview]" ∧
          detailContentField p = "[No preview]")) := by
  constructor
  · intro he pv
    constructor <;> simp [contentCell, detailContentField, he]
  · intro he
    constructor
    · intro s hs hne
      constructor <;> simp [contentCell, detailContentField, he, hs, jsOrStr, hne]
    · rintro (hs | hs) <;>
        constructor <;> simp [contentCell, detailContentField, he, hs, jsOrStr]

/-- C2 witness: an encrypted record with a non-empty preview shows the
indicator; a decoded record shows its preview. -/
theorem C2_encrypted_display_witness :
    contentCell { basePacket with encrypted := true, payload_preview := some "secret" }
      = encryptedIndicator ∧
    contentCell basePacket = "hello" :=
  ⟨((C2_encrypted_display { basePacket with encrypted := true }).1 rfl (some "secret")).1,
   (((C2_encrypted_display basePacket).2 rfl).1 "hello" rfl (by decide)).1⟩

/-- C3: when either required permission is missing, the component
renders only the permission-denied explanation, a fetch attempt issues
no request and changes no state, and the polling effect installs no
interval — for every state, i.e. for as long as the permission check
fails. -/
theorem C3_permission_gate (hasPermission : String → String → Bool)
    (own : Option Nat) (s : PanelState) (result : Option FetchResponse) :
    hasPermission "channels" "read" = false ∨
      hasPermission "messages" "read" = false →
    render (canView hasPermission) own s = PanelView.permissionDenied ∧
    fetchPackets (canView hasPermission) result s = (s, []) ∧
    pollIntervalSetup (canView hasPermission) = none := by
  intro h
  have hcv : canView hasPermission = false := by
    rcases h with h | h <;> simp [canView, h]
  rw [hcv]
  exact ⟨by simp [render], by simp [fetchPackets], by simp [pollIntervalSetup]⟩

/-- C3 witness: the gate conclusions at a concrete denied oracle. -/
theorem C3_permission_gate_witness :
    render (canView fun _ _ => false) none initState = PanelView.permissionDenied ∧
    fetchPackets (canView fun _ _ => false) none initState = (initState, []) ∧
    pollIntervalSetup (canView fun _ _ => false) = none :=
  C3_permission_gate (fun _ _ => false) none initState none (Or.inl rfl)

/-- C4: the clear handler never changes component state; a non-admin
invocation only alerts and performs no clear; without confirmation
nothing beyond the prompt happens; on confirmed success the clear
request is followed immediately by a fetch re-trigger; on confirmed
failure a user-visible alert is raised and no fetch is triggered. -/
theorem C4_clear_action (isAdmin conf ok : Bool) (s : PanelState) :
    ((handleClear isAdmin conf ok s).1 = s) ∧
    (isAdmin = false →
      handleClear isAdmin conf ok s =
        (s, [Effect.alert "Only administrators can clear packet logs"]) ∧
      Effect.clearRequest ∉ (handleClear isAdmin conf ok s).2) ∧
    (isAdmin = true → conf = false →
      (handleClear isAdmin conf ok s).2 =
        [Effect.confirmPrompt "Are you sure you want to clear all packet logs?"]) ∧
    (isAdmin = true → conf = true → ok = true →
      (handleClear isAdmin conf ok s).2 =
        [Effect.confirmPrompt "Are you sure you want to clear all packet logs?",
         Effect.clearRequest, Effect.fetchTrigger]) ∧
    (isAdmin = true → conf = true → ok = false →
      Effect.alert "Failed to clear packet logs" ∈ (handleClear isAdmin conf ok s).2 ∧
      Effect.fetchTrigger ∉ (handleClear isAdmin conf ok s).2) := by
  cases isAdmin <;> cases conf <;> cases ok <;>
    simp [handleClear]

/-- C4 witness: concrete instances of the admin-success and non-admin
branches. -/
theorem C4_clear_action_witness :
    (handleClear true true true initState).2 =
      [Effect.confirmPrompt "Are you sure you want to clear all packet logs?",
       Effect.clearRequest, Effect.fetchTrigger] ∧
    Effect.clearRequest ∉ (handleClear false true true initState).2 :=
  ⟨(C4_clear_action true true true initState).2.2.2.1 rfl rfl rfl,
   ((C4_clear_action false true true initState).2.1 rfl).2⟩

/-- C5: a failed fetch only clears the loading flag — the displayed
raw list, total and maximum-capacity counters keep their previous
values — logs internally, and raises no user-visible alert; a
successful fetch replaces the raw list and both counters and clears
the loading flag.  Both outcomes return normally, so nothing
propagates to the host. -/
theorem C5_fetch_outcomes (s : PanelState) (r : FetchResponse) :
    ((fetchPackets true none s).1.rawPackets = s.rawPackets ∧
     (fetchPackets true none s).1.total = s.total ∧
     (fetchPackets true none s).1.maxCount = s.maxCount ∧
     (fetchPackets true none s).1.loading = false) ∧
    Effect.logError "Failed to fetch packets" ∈ (fetchPackets true none s).2 ∧
    (∀ m, Effect.alert m ∉ (fetchPackets true none s).2) ∧
    ((fetchPackets true (some r)  s).1.rawPackets = r.packets ∧
     (fetchPackets true (some r) s).1.total = r.total ∧
     (fetchPackets true (some r) s).1.maxCount = r.maxCount ∧
     (fetchPackets true (some r) s).1.loading = false) := by
  refine ⟨⟨rfl, rfl, rfl, rfl⟩, ?_, ?_, ⟨rfl, rfl, rfl, rfl⟩⟩
  · simp [fetchPackets]
  · intro m
    simp [fetchPackets]

/-- C5 witness: the failure conclusions at a concrete state. -/
theorem C5_fetch_outcomes_witness :
    Effect.logError "Failed to fetch packets" ∈ (fetchPackets true none initState).2 ∧
    Effect.alert "oops" ∉ (fetchPackets true none initState).2 :=
  ⟨(C5_fetch_outcomes initState ⟨[], 0, 1000⟩).2.1,
   (C5_fetch_outcomes initState ⟨[], 0, 1000⟩).2.2.1 "oops"⟩

/-- C6: the derived hop count is present exactly when both hop
counters are present, equals `hop_start - hop_limit` when so, and
renders as the `N/A` marker otherwise. -/
theorem C6_hop_count (p : PacketLog) :
    ((calculateHops p).isSome ↔ p.hop_start.isSome ∧ p.hop_limit.isSome) ∧
    (∀ a b, p.hop_start = some a → p.hop_limit = some b →
      calculateHops p = some (a - b) ∧ hopsCell p = toString (a - b)) ∧
    (calculateHops p = none → hopsCell p = "N/A") := by
  rcases hs : p.hop_start with _ | a <;> rcases hl : p.hop_limit with _ | b <;>
    simp [calculateHops, hopsCell, hs, hl]

/-- C6 witness: hop count of the sample packet and the `N/A` case. -/
theorem C6_hop_count_witness :
    calculateHops basePacket = some 2 ∧
    hopsCell { basePacket with hop_start := none } = "N/A" :=
  ⟨((C6_hop_count basePacket).2.1 3 1 rfl rfl).1,
   (C6_hop_count { basePacket with hop_start := none }).2.2 rfl⟩

/-- C7: the dynamic type-column width is `max(longestLabel + 5, 12)`
character units over the effective row list, where each label is the
human-readable type name when present and otherwise the numeric code
as text (that is what `typeLabel` reads off the record); the width
never drops below the 12-unit floor and is monotone in the longest
label length; `longestTypeLabel` really bounds every visible label. -/
theorem C7_type_column_width (pkts pkts' : List PacketLog) :
    typeColumnWidthChars pkts = max (longestTypeLabel pkts + 5) 12 ∧
    12 ≤ typeColumnWidthChars pkts ∧
    (longestTypeLabel pkts ≤ longestTypeLabel pkts' →
      typeColumnWidthChars pkts ≤ typeColumnWidthChars pkts') ∧
    (∀ p ∈ pkts, (typeLabel p).length ≤ longestTypeLabel pkts) := by
  refine ⟨rfl, Nat.le_max_right _ _, ?_, ?_⟩
  · intro h
    have := Nat.add_le_add_right h 5
    simp only [typeColumnWidthChars]
    omega
  · intro p hp
    exact label_le_longestTypeLabel pkts 0 p hp

/-- C7 witness: monotonicity and the label bound at concrete lists. -/
theorem C7_type_column_width_witness :
    typeColumnWidthChars [] ≤
      typeColumnWidthChars [basePacket] ∧
    (typeLabel basePacket).length ≤ longestTypeLabel [basePacket] :=
  ⟨(C7_type_column_width [] [basePacket]).2.2.1 (by decide),
   (C7_type_column_width [basePacket] []).2.2.2 basePacket (by decide)⟩

/-- C8: a record whose destination string id is the broadcast sentinel
`!ffffffff` renders as `Broadcast` in the table To cell and in the
overlay To field, whatever long name the record carries and whether or
not a navigation callback was supplied. -/
theorem C8_broadcast_sentinel (p : PacketLog) (hasNodeClick : Bool)
    (ln : Option String) :
    p.to_node_id = some "!ffffffff" →
    toCellText hasNodeClick { p with to_node_longName := ln } = "Broadcast" ∧
    detailToText { p with to_node_longName := ln } = "Broadcast" := by
  intro h
  cases p
  simp only at h
  constructor <;> simp [toCellText, detailToText, h]

/-- C8 witness: a broadcast packet with a long name present. -/
theorem C8_broadcast_sentinel_witness :
    toCellText true
        { { basePacket with to_node_id := some "!ffffffff" } with
            to_node_longName := some "Everyone" } = "Broadcast" ∧
    detailToText
        { { basePacket with to_node_id := some "!ffffffff" } with
            to_node_longName := some "Everyone" } = "Broadcast" :=
  C8_broadcast_sentinel { basePacket with to_node_id := some "!ffffffff" }
    true (some "Everyone") rfl

/-- C9: the overlay metadata row passes a present, non-empty metadata
blob to `JSON.parse` with no error guard; on the non-JSON input
`not json` the parse fails, and rendering the detail overlay of such a
packet yields the propagated error instead of a view. -/
theorem C9_metadata_parse_unguarded :
    jsonParse "not json" = none ∧
    ({ basePacket with metadata := some "not json" } : PacketLog).metadata
      = some "not json" ∧
    renderDetailOverlay { basePacket with metadata := some "not json" }
      = Except.error "SyntaxError: JSON.parse" := by
  refine ⟨rfl, rfl, rfl⟩

/-- The `JSON.parse` model accepts ordinary structured metadata, so
the C9 failure is specific to malformed blobs. -/
theorem jsonParse_structured_ok :
    (jsonParse "\x7b\"snr\": -12.5, \"ok\": true, \"xs\": [1, 2.5e3, null]\x7d").isSome
      = true := rfl

/-- A packet whose metadata is well-formed JSON renders fine. -/
theorem renderDetailOverlay_ok_on_valid_metadata :
    (renderDetailOverlay { basePacket with metadata := some "\x7b\"a\": 1\x7d" }).isOk
      = true := rfl

/-- C10: a successful fetch changes only the raw list, the two
counters and the loading flag; selection, filters and the three
toggles are untouched; in particular, with the overlay open on a
snapshot whose id does not occur in the new list, the rendered overlay
still displays that snapshot. -/
theorem C10_fetch_frame (s : PanelState) (r : FetchResponse) (own : Option Nat) :
    ((fetchPackets true (some r) s).1.selectedPacket = s.selectedPacket ∧
     (fetchPackets true (some r) s).1.filters = s.filters ∧
     (fetchPackets true (some r) s).1.hideOwnPackets = s.hideOwnPackets ∧
     (fetchPackets true (some r) s).1.autoScroll = s.autoScroll ∧
     (fetchPackets true (some r) s).1.showFilters = s.showFilters) ∧
    ((fetchPackets true (some r) s).1.rawPackets = r.packets ∧
     (fetchPackets true (some r) s).1.total = r.total ∧
     (fetchPackets true (some r) s).1.maxCount = r.maxCount ∧
     (fetchPackets true (some r) s).1.loading = false) ∧
    (∀ p, s.selectedPacket = some p →
      (∀ q ∈ r.packets, q.id ≠ p.id) →
      overlayPacket (render true own (fetchPackets true (some r) s).1) = some p) := by
  refine ⟨⟨rfl, rfl, rfl, rfl, rfl⟩, ⟨rfl, rfl, rfl, rfl⟩, ?_⟩
  intro p hp _
  simp [render, overlayPacket, fetchPackets, hp]

/-- C10 witness: after a fetch whose response does not contain the
selected packet's id, the overlay still shows the old snapshot. -/
theorem C10_fetch_frame_witness :
    overlayPacket
        (render true none
          (fetchPackets true (some ⟨[basePacket], 1, 1000⟩)
            { initState with
                selectedPacket := some { basePacket with id := 99 } }).1)
      = some { basePacket with id := 99 } :=
  (C10_fetch_frame
      { initState with selectedPacket := some { basePacket with id := 99 } }
      ⟨[basePacket], 1, 1000⟩ none).2.2
    { basePacket with id := 99 } rfl (by decide)

end PacketMonitor
